import Mathlib

/-!
Shallow embedding of the chapa-rust payment client library.

The embedding covers the three files the verified claims are about:

* `src/config.rs` — the `ChapaConfig` value object and its
  `ChapaConfigBuilder` (builder pattern, placeholder api key guard);
* `src/client.rs` — the `ChapaClient` dispatcher: `build_header`,
  `make_request` (URL composition, header conversion, method parsing,
  bearer auth, send, JSON decode) and `get_banks`;
* `src/models/response.rs` — the generic envelope types `ChapaResponse`
  and `ChapaResponseWithMeta` together with their serde-derived
  deserialization behaviour (required `message`, defaulted `status`,
  defaulted `data` and `meta`).

Machine-level details are modelled as follows: JSON bodies are a plain
inductive `Json`; `std::time::Duration` timeouts are second counts
(`Nat`); the `HashMap<String, String>` header map is an association
list whose `insert` replaces an existing key; fallible Rust functions
return `Except`; the `unwrap` calls inside `ChapaConfigBuilder::build`
are modelled by an outer `Option` whose `none` stands for a panic.
The validity predicates for header names, header values and method
tokens reproduce the checks of the `http` crate that `reqwest`
delegates to (`HeaderName::try_from`, `HeaderValue::try_from`,
`Method::try_from`).
-/

namespace Chapa

/-- JSON values as deserialized by serde_json (numbers restricted to
integers, which is all the verified claims need). -/
inductive Json : Type where
  | null : Json
  | bool (b : Bool) : Json
  | num (n : Int) : Json
  | str (s : String) : Json
  | arr (elems : List Json) : Json
  | obj (fields : List (String × Json)) : Json

/-- Mirrors the constant `PLACEHOLDER_API_KEY` of `src/config.rs`. -/
def PLACEHOLDER_API_KEY : String := "placeholder_api_key"

/-- Mirrors the error message returned by `ChapaConfigBuilder::build`
when the api key is missing or still the placeholder (apostrophe of the
original message elided). -/
def missingApiKeyMsg : String :=
  "API Key is required but not set. Please set it using the CHAPA_API_PUBLIC_KEY environment variable or via the builder api_key() method."

/-- Mirrors `ChapaConfig` of `src/config.rs`: the immutable
configuration value.  `timeout` is the duration in seconds. -/
structure ChapaConfig where
  api_key : String
  base_url : String
  version : String
  default_headers : List (String × String)
  timeout : Nat

/-- Mirrors `ChapaConfigBuilder` of `src/config.rs`. -/
structure ChapaConfigBuilder where
  api_key : Option String
  base_url : Option String
  version : Option String
  default_headers : List (String × String)
  timeout : Option Nat

/-- Models `HashMap::insert` on the association-list representation of
the header map: replaces the value of an existing key, otherwise
appends the new pair. -/
def headerMapInsert (hs : List (String × String)) (k v : String) :
    List (String × String) :=
  if hs.any (fun p => p.1 == k) then
    hs.map (fun p => if p.1 == k then (k, v) else p)
  else
    hs ++ [(k, v)]

/-- Mirrors `ChapaConfigBuilder::build` of `src/config.rs`.  The two
`unwrap` calls on `base_url`, `version` and `timeout` are modelled by
the outer `Option`: `none` is an `unwrap` panic. -/
def ChapaConfigBuilder.build (b : ChapaConfigBuilder) :
    Option (Except String ChapaConfig) :=
  if b.api_key.isNone ∨ b.api_key = some PLACEHOLDER_API_KEY then
    some (.error missingApiKeyMsg)
  else
    match b.api_key, b.base_url, b.version, b.timeout with
    | some k, some u, some v, some t =>
        some (.ok { api_key := k, base_url := u, version := v,
                    default_headers := b.default_headers, timeout := t })
    | _, _, _, _ => none

/-- Mirrors `ChapaConfigBuilder::default` of `src/config.rs`.  The
environment lookup `std::env::var("CHAPA_API_PUBLIC_KEY")` is passed
in as the parameter `env`; an unset variable yields the placeholder. -/
def builderDefault (env : Option String) : ChapaConfigBuilder :=
  { api_key := some (env.getD PLACEHOLDER_API_KEY)
    base_url := some "https://api.chapa.co"
    version := some "v1"
    default_headers := [("Content-Type", "application/json")]
    timeout := some 30 }

/-- One application of a public setter of `ChapaConfigBuilder`
(`base_url`, `version`, `api_key`, `timeout`, `add_header`). -/
inductive BuilderOp : Type where
  | base_url (url : String)
  | version (v : String)
  | api_key (key : String)
  | timeout (seconds : Nat)
  | add_header (key value : String)

/-- Mirrors the fluent setters of `ChapaConfigBuilder`: each setter
wraps its argument in `Some`; `add_header` inserts into the header
map. -/
def applyOp (b : ChapaConfigBuilder) : BuilderOp → ChapaConfigBuilder
  | .base_url url => { b with base_url := some url }
  | .version v => { b with version := some v }
  | .api_key key => { b with api_key := some key }
  | .timeout s => { b with timeout := some s }
  | .add_header k v =>
      { b with default_headers := headerMapInsert b.default_headers k v }

/-- A chain of setter calls applied left to right, as in the fluent
builder pattern. -/
def applyOps (b : ChapaConfigBuilder) : List BuilderOp → ChapaConfigBuilder
  | [] => b
  | op :: rest => applyOps (applyOp b op) rest

/-- Mirrors the `ChapaError` enum of `src/error.rs` (payload strings
abbreviated to the offending token). -/
inductive ChapaError : Type where
  | MissingApiKey : ChapaError
  | NetworkError (msg : String) : ChapaError
  | InvalidHttpMethod (msg : String) : ChapaError
  | ApiError (msg : String) : ChapaError
  | InvalidHeaderValue (msg : String) : ChapaError
  | InvalidHeaderName (msg : String) : ChapaError
  | JsonError (msg : String) : ChapaError

/-- Recognizes the two header-construction error kinds. -/
def isHeaderErr : ChapaError → Bool
  | .InvalidHeaderValue _ => true
  | .InvalidHeaderName _ => true
  | _ => false

/-- Valid characters of an HTTP header name, as accepted by
`http::HeaderName::try_from`: digits, letters and the RFC 7230 token
specials (written by code point). -/
def isHeaderNameChar (c : Char) : Bool :=
  let n := c.toNat
  (48 ≤ n && n ≤ 57) || (65 ≤ n && n ≤ 90) || (97 ≤ n && n ≤ 122) ||
  n == 33 || n == 35 || n == 36 || n == 37 || n == 38 || n == 39 ||
  n == 42 || n == 43 || n == 45 || n == 46 || n == 94 || n == 95 ||
  n == 96 || n == 124 || n == 126

/-- Validity of a whole header name: nonempty and all token
characters. -/
def validHeaderName (s : String) : Bool :=
  !s.isEmpty && s.toList.all isHeaderNameChar

/-- Valid characters of an HTTP header value, as accepted by
`http::HeaderValue::try_from`: horizontal tab or any character of code
point at least 32 other than DEL (code points above 127 encode to
UTF-8 bytes that the byte-level check accepts). -/
def isHeaderValueChar (c : Char) : Bool :=
  let n := c.toNat
  n == 9 || (32 ≤ n && n != 127)

/-- Validity of a whole header value: all characters valid (the empty
value is legal). -/
def validHeaderValue (s : String) : Bool :=
  s.toList.all isHeaderValueChar

/-- ASCII lowercasing of one character, as `http::HeaderName`
normalizes header names. -/
def charLowerAscii (c : Char) : Char :=
  if 65 ≤ c.toNat ∧ c.toNat ≤ 90 then Char.ofNat (c.toNat + 32) else c

/-- ASCII lowercasing of a header name. -/
def lowerAscii (s : String) : String := ⟨s.data.map charLowerAscii⟩

/-- Worker of `build_header`: walks the header pairs in order,
validating each name and value and inserting the lowercased name into
the accumulated header map, aborting at the first illegal token,
mirroring the loop of `ChapaClient::build_header`. -/
def buildHeaderAux (acc : List (String × String)) :
    List (String × String) → Except ChapaError (List (String × String))
  | [] => .ok acc
  | (key, value) :: rest =>
    if validHeaderName key then
      if validHeaderValue value then
        buildHeaderAux (headerMapInsert acc (lowerAscii key) value) rest
      else .error (.InvalidHeaderValue value)
    else .error (.InvalidHeaderName key)

/-- Mirrors `ChapaClient::build_header` of `src/client.rs`: converts
the configuration header mapping into transport-level headers, failing
on the first illegal name or value. -/
def build_header (headers : List (String × String)) :
    Except ChapaError (List (String × String)) :=
  buildHeaderAux [] headers

/-- Mirrors `reqwest::Method::try_from` as called by `make_request`:
any nonempty token string is a legal method. -/
def parseMethod (method : String) : Except ChapaError String :=
  if !method.isEmpty && method.toList.all isHeaderNameChar then .ok method
  else .error (.InvalidHttpMethod method)

/-- The outgoing HTTP request assembled by `make_request`.  The header
map carries everything attached to the request, including the
`authorization` entry installed by `bearer_auth` — which a later
`.headers(...)` merge can replace, as on the wire. -/
structure HttpRequest where
  method : String
  url : String
  headers : List (String × String)
  body : Option Json

/-- Models `reqwest::RequestBuilder::headers`: the supplied header map
`src` is replace-merged into the headers already set on the request
(`dst`) — an entry of `src` whose name is already present replaces the
existing value, otherwise it is appended. -/
def replaceHeaders (dst : List (String × String)) :
    List (String × String) → List (String × String)
  | [] => dst
  | (k, v) :: rest => replaceHeaders (headerMapInsert dst k v) rest

/-- Looks up the value of a header by name in a header map. -/
def headerValue (hs : List (String × String)) (name : String) :
    Option String :=
  (hs.find? (fun p => p.1 == name)).map Prod.snd

/-- An HTTP response as seen by the dispatcher: a transport status
code and a JSON body. -/
structure HttpResponse where
  statusCode : Nat
  body : Json

/-- The request-assembly prefix of `ChapaClient::make_request`
(`src/client.rs`): compose the URL by plain string interpolation,
convert the default headers, parse the method, attach the optional
body, install the bearer authorization built from the api key
(`bearer_auth` sets the `authorization` header), then replace-merge
the converted default headers on top of it (`.headers(...)` comes
after `.bearer_auth(...)` in the source, so a converted default header
named `authorization` replaces the bearer value). -/
def buildRequest (cfg : ChapaConfig) (endpoint method : String)
    (body : Option Json) : Except ChapaError HttpRequest :=
  let url := cfg.base_url ++ "/" ++ cfg.version ++ "/" ++ endpoint
  match build_header cfg.default_headers with
  | .error e => .error e
  | .ok headers =>
    match parseMethod method with
    | .error e => .error e
    | .ok m =>
      .ok { method := m, url := url,
            headers := replaceHeaders
              [("authorization", "Bearer " ++ cfg.api_key)] headers,
            body := body }

/-- Mirrors `ChapaClient::make_request`: assemble the request, send it
through the transport, and decode the JSON body of whatever response
comes back.  The transport is a parameter; the decoder stands for
`Response::json::<T>`.  A decode failure is a `reqwest::Error`, which
the `?` converts through `From<reqwest::Error>` (`src/error.rs`) into
`ChapaError::NetworkError` — not `JsonError`, which only the direct
`serde_json` calls produce. -/
def makeRequest {T : Type} (cfg : ChapaConfig) (endpoint method : String)
    (body : Option Json) (transport : HttpRequest → HttpResponse)
    (decode : Json → Except String T) : Except ChapaError T :=
  match buildRequest cfg endpoint method body with
  | .error e => .error e
  | .ok req =>
    match decode (transport req).body with
    | .error e => .error (.NetworkError e)
    | .ok v => .ok v

/-- Mirrors `ChapaClient` of `src/client.rs`: one reusable transport
handle (here: its timeout) plus the configuration. -/
structure ChapaClient where
  httpTimeout : Nat
  config : ChapaConfig

/-- Mirrors `ChapaClient::new`: build a configuration from the default
builder with the secret key applied, propagating a build failure
(`none` again stands for a builder panic, which never happens from
this entry point). -/
def chapaClientNew (env : Option String) (secretKey : String) :
    Option (Except String ChapaClient) :=
  match (applyOp (builderDefault env) (.api_key secretKey)).build with
  | none => none
  | some (.error e) => some (.error e)
  | some (.ok cfg) =>
      some (.ok { httpTimeout := cfg.timeout, config := cfg })

/-- Mirrors `ChapaResponse<D>` of `src/models/response.rs`: the
generic envelope with a dynamically typed `message`, a `status` string
and the endpoint-specific `data`. -/
structure ChapaResponse (D : Type) where
  message : Json
  status : String
  data : D

/-- Mirrors `ChapaResponseWithMeta<D, M>` of `src/models/response.rs`. -/
structure ChapaResponseWithMeta (D M : Type) where
  message : Json
  status : String
  data : D
  meta : M

/-- Mirrors the `unspecified_status` default function of
`src/models/response.rs`. -/
def unspecified_status : String := "Unspecified"

/-- Extraction of a named field from a deserialized JSON object, as
the serde-derived visitor sees it: absent yields `none`, a repeated
field is an error, and unknown fields are ignored. -/
def getField (fields : List (String × Json)) (name : String) :
    Except String (Option Json) :=
  match fields.filter (fun p => p.1 == name) with
  | [] => .ok none
  | [p] => .ok (some p.2)
  | _ => .error ("duplicate field " ++ name)

/-- Deserialization of a JSON string into a Rust `String`. -/
def decodeString : Json → Except String String
  | .str s => .ok s
  | _ => .error "invalid type: expected a string"

/-- Deserialization of `Option<X>` as serde derives it: `null` decodes
to `None`, anything else decodes the inner value. -/
def serdeOption {X : Type} (dec : Json → Except String X) (j : Json) :
    Except String (Option X) :=
  match j with
  | .null => .ok none
  | j => (dec j).map some

/-- Deserialization of `Vec<X>` as serde derives it. -/
def decodeJsonList {X : Type} (dec : Json → Except String X) :
    Json → Except String (List X)
  | .arr elems => elems.mapM dec
  | _ => .error "invalid type: expected a sequence"

/-- The serde-derived deserializer of `ChapaResponse<D>`: `message` is
required (`serde_json::Value` has no default), `status` falls back to
the `Unspecified` sentinel when the field is absent, and `data` falls
back to `defaultD` (the `#[serde(default)]` attribute) when absent. -/
def decodeChapaResponse {D : Type} (decodeD : Json → Except String D)
    (defaultD : D) : Json → Except String (ChapaResponse D)
  | .obj fields => do
    let msgO ← getField fields "message"
    let stO ← getField fields "status"
    let dataO ← getField fields "data"
    match msgO with
    | none => .error "missing field message"
    | some m => do
      let status ← match stO with
        | none => pure unspecified_status
        | some v => decodeString v
      let data ← match dataO with
        | none => pure defaultD
        | some v => decodeD v
      .ok { message := m, status := status, data := data }
  | _ => .error "invalid type: expected a map"

/-- The serde-derived deserializer of `ChapaResponseWithMeta<D, M>`:
like `decodeChapaResponse` with an additional defaulted `meta`
field. -/
def decodeChapaResponseWithMeta {D M : Type}
    (decodeD : Json → Except String D) (defaultD : D)
    (decodeM : Json → Except String M) (defaultM : M) :
    Json → Except String (ChapaResponseWithMeta D M)
  | .obj fields => do
    let msgO ← getField fields "message"
    let stO ← getField fields "status"
    let dataO ← getField fields "data"
    let metaO ← getField fields "meta"
    match msgO with
    | none => .error "missing field message"
    | some m => do
      let status ← match stO with
        | none => pure unspecified_status
        | some v => decodeString v
      let data ← match dataO with
        | none => pure defaultD
        | some v => decodeD v
      let meta ← match metaO with
        | none => pure defaultM
        | some v => decodeM v
      .ok { message := m, status := status, data := data, meta := meta }
  | _ => .error "invalid type: expected a map"

/-- Mirrors `ChapaClient::get_banks` of `src/client.rs`: a `GET` on
the `banks` endpoint decoded as `GetBanksResponse =
ChapaResponse<Option<Vec<Bank>>>`; the field-level decoder of one
`Bank` record (a plain field bag of `src/models/bank.rs`) is a
parameter. -/
def get_banks {B : Type} (cfg : ChapaConfig)
    (transport : HttpRequest → HttpResponse)
    (decodeBank : Json → Except String B) :
    Except ChapaError (ChapaResponse (Option (List B))) :=
  makeRequest cfg "banks" "GET" none transport
    (decodeChapaResponse (serdeOption (decodeJsonList decodeBank)) none)

/-! Helper lemmas shared by the claim theorems. -/

/-- The invariant maintained by the builder: every defaulted field is
populated. -/
def builderInv (b : ChapaConfigBuilder) : Prop :=
  b.api_key.isSome = true ∧ b.base_url.isSome = true ∧
  b.version.isSome = true ∧ b.timeout.isSome = true

lemma applyOp_inv (b : ChapaConfigBuilder) (op : BuilderOp)
    (h : builderInv b) : builderInv (applyOp b op) := by
  obtain ⟨h1, h2, h3, h4⟩ := h
  cases op <;> simp_all [applyOp, builderInv]

lemma applyOps_inv (ops : List BuilderOp) :
    ∀ b, builderInv b → builderInv (applyOps b ops) := by
  induction ops with
  | nil => intro b h; exact h
  | cons op rest ih => intro b h; exact ih _ (applyOp_inv b op h)

lemma builderDefault_inv (env : Option String) :
    builderInv (builderDefault env) :=
  ⟨rfl, rfl, rfl, rfl⟩

lemma build_error_of_guard (b : ChapaConfigBuilder)
    (h : b.api_key = none ∨ b.api_key = some PLACEHOLDER_API_KEY) :
    b.build = some (.error missingApiKeyMsg) := by
  unfold ChapaConfigBuilder.build
  rw [if_pos]
  rcases h with h | h
  · left; rw [h]; rfl
  · right; exact h

lemma build_ok_of_key (b : ChapaConfigBuilder) (k u v : String) (t : Nat)
    (hk : b.api_key = some k) (hu : b.base_url = some u)
    (hv : b.version = some v) (ht : b.timeout = some t)
    (hnp : k ≠ PLACEHOLDER_API_KEY) :
    b.build = some (.ok { api_key := k, base_url := u, version := v,
                          default_headers := b.default_headers,
                          timeout := t }) := by
  have hg : ¬(b.api_key.isNone ∨ b.api_key = some PLACEHOLDER_API_KEY) := by
    simp [hk, hnp]
  unfold ChapaConfigBuilder.build
  rw [if_neg hg, hk, hu, hv, ht]

lemma build_of_inv (b : ChapaConfigBuilder) (h : builderInv b) :
    b.build = some (.error missingApiKeyMsg) ∨
      ∃ cfg, b.build = some (.ok cfg) := by
  obtain ⟨h1, h2, h3, h4⟩ := h
  by_cases hg : b.api_key = none ∨ b.api_key = some PLACEHOLDER_API_KEY
  · exact Or.inl (build_error_of_guard b hg)
  · push_neg at hg
    obtain ⟨k, hk⟩ := Option.isSome_iff_exists.mp h1
    obtain ⟨u, hu⟩ := Option.isSome_iff_exists.mp h2
    obtain ⟨v, hv⟩ := Option.isSome_iff_exists.mp h3
    obtain ⟨t, ht⟩ := Option.isSome_iff_exists.mp h4
    refine Or.inr ⟨_, build_ok_of_key b k u v t hk hu hv ht ?_⟩
    intro hkp
    exact hg.2 (by rw [hk, hkp])

lemma buildRequest_ok_fields (cfg : ChapaConfig) (endpoint method : String)
    (body : Option Json) (req : HttpRequest)
    (h : buildRequest cfg endpoint method body = .ok req) :
    req.url = cfg.base_url ++ "/" ++ cfg.version ++ "/" ++ endpoint ∧
    req.body = body ∧
    ∃ hm, build_header cfg.default_headers = .ok hm ∧
      req.headers = replaceHeaders
        [("authorization", "Bearer " ++ cfg.api_key)] hm := by
  unfold buildRequest at h
  rcases hh : build_header cfg.default_headers with e | headers <;>
    rw [hh] at h
  · exact absurd h (by simp)
  · rcases hm : parseMethod method with e | m <;> rw [hm] at h
    · exact absurd h (by simp)
    · injection h with h2
      subst h2
      exact ⟨rfl, rfl, headers, rfl, rfl⟩

lemma headerMapInsert_keys (acc : List (String × String)) (k v : String)
    (q : String × String) (hq : q ∈ headerMapInsert acc k v) :
    q.1 ∈ acc.map Prod.fst ∨ q.1 = k := by
  unfold headerMapInsert at hq
  by_cases hA : acc.any (fun p => p.1 == k) = true
  · rw [if_pos hA] at hq
    obtain ⟨p, hp, hfp⟩ := List.mem_map.mp hq
    by_cases hpk : (p.1 == k) = true
    · rw [if_pos hpk] at hfp
      right
      rw [← hfp]
    · rw [if_neg hpk] at hfp
      left
      exact List.mem_map.mpr ⟨p, hp, by rw [hfp]⟩
  · rw [if_neg hA] at hq
    rcases List.mem_append.mp hq with hin | hin
    · left
      exact List.mem_map.mpr ⟨q, hin, rfl⟩
    · right
      have hqe : q = (k, v) := List.mem_singleton.mp hin
      rw [hqe]

lemma buildHeaderAux_keys (rest : List (String × String)) :
    ∀ acc hm, buildHeaderAux acc rest = .ok hm →
      ∀ q ∈ hm,
        q.1 ∈ acc.map Prod.fst ∨ ∃ p ∈ rest, q.1 = lowerAscii p.1 := by
  induction rest with
  | nil =>
    intro acc hm h q hq
    left
    unfold buildHeaderAux at h
    injection h with h2
    subst h2
    exact List.mem_map.mpr ⟨q, hq, rfl⟩
  | cons kv rest ih =>
    intro acc hm h q hq
    obtain ⟨k, v⟩ := kv
    unfold buildHeaderAux at h
    by_cases hk : validHeaderName k = true
    · rw [if_pos hk] at h
      by_cases hv : validHeaderValue v = true
      · rw [if_pos hv] at h
        rcases ih _ _ h q hq with hin | ⟨p, hp, hpe⟩
        · obtain ⟨q2, hq2, he⟩ := List.mem_map.mp hin
          rcases headerMapInsert_keys acc (lowerAscii k) v q2 hq2 with h1 | h1
          · left
            rw [← he]
            exact h1
          · right
            exact ⟨(k, v), List.mem_cons_self _ _, by rw [← he, h1]⟩
        · right
          exact ⟨p, List.mem_cons_of_mem _ hp, hpe⟩
      · rw [if_neg hv] at h
        exact absurd h (by simp)
    · rw [if_neg hk] at h
      exact absurd h (by simp)

lemma headerValue_cons (x : String × String) (xs : List (String × String))
    (name : String) :
    headerValue (x :: xs) name =
      if (x.1 == name) = true then some x.2 else headerValue xs name := by
  cases hx : (x.1 == name) <;> simp [headerValue, List.find?, hx]

lemma headerValue_map_replace_ne (dst : List (String × String))
    (k v name : String) (hkn : (k == name) = false) :
    headerValue (dst.map (fun p => if p.1 == k then (k, v) else p)) name
      = headerValue dst name := by
  induction dst with
  | nil => rfl
  | cons p rest ih =>
    rw [List.map_cons, headerValue_cons, headerValue_cons]
    by_cases hp : (p.1 == k) = true
    · have hpk : p.1 = k := by simpa using hp
      have hp1 : (p.1 == name) = false := by rw [hpk]; exact hkn
      simp only [hp, if_true, hkn, hp1, if_false, Bool.false_eq_true, ih]
    · simp only [hp, Bool.false_eq_true, if_false, ih]

lemma headerValue_append_single_ne (dst : List (String × String))
    (k v name : String) (hkn : (k == name) = false) :
    headerValue (dst ++ [(k, v)]) name = headerValue dst name := by
  induction dst with
  | nil =>
    rw [List.nil_append, headerValue_cons, if_neg (by simp [hkn])]
  | cons p rest ih =>
    rw [List.cons_append, headerValue_cons, headerValue_cons, ih]

lemma headerValue_insert_ne (dst : List (String × String))
    (k v name : String) (hkn : (k == name) = false) :
    headerValue (headerMapInsert dst k v) name = headerValue dst name := by
  unfold headerMapInsert
  by_cases hA : dst.any (fun p => p.1 == k) = true
  · rw [if_pos hA]
    exact headerValue_map_replace_ne dst k v name hkn
  · rw [if_neg hA]
    exact headerValue_append_single_ne dst k v name hkn

lemma replaceHeaders_value_ne (src : List (String × String)) :
    ∀ dst name, (∀ p ∈ src, (p.1 == name) = false) →
      headerValue (replaceHeaders dst src) name = headerValue dst name := by
  induction src with
  | nil =>
    intro dst name _
    rfl
  | cons kv rest ih =>
    intro dst name h
    obtain ⟨k, v⟩ := kv
    unfold replaceHeaders
    rw [ih _ name (fun p hp => h p (List.mem_cons_of_mem _ hp))]
    exact headerValue_insert_ne dst k v name (h (k, v) (List.mem_cons_self _ _))

lemma buildRequest_bearer (cfg : ChapaConfig) (endpoint method : String)
    (body : Option Json) (req : HttpRequest)
    (h : buildRequest cfg endpoint method body = .ok req)
    (hauth : "authorization" ∉
      cfg.default_headers.map (fun p => lowerAscii p.1)) :
    headerValue req.headers "authorization"
      = some ("Bearer " ++ cfg.api_key) := by
  obtain ⟨-, -, hm, hbh, hhs⟩ :=
    buildRequest_ok_fields cfg endpoint method body req h
  have hsrc : ∀ q ∈ hm, (q.1 == "authorization") = false := by
    intro q hq
    rcases buildHeaderAux_keys cfg.default_headers [] hm hbh q hq with
      hin | ⟨p, hp, hpe⟩
    · exact absurd hin (by simp)
    · have hne : q.1 ≠ "authorization" := by
        rw [hpe]
        intro hcontra
        exact hauth (List.mem_map.mpr ⟨p, hp, hcontra⟩)
      simpa using hne
  rw [hhs, replaceHeaders_value_ne hm _ _ hsrc]
  rfl

lemma bindOk {ε α β : Type} (a : α) (f : α → Except ε β) :
    (Except.ok a >>= f) = f a := rfl

lemma bindErr {ε α β : Type} (e : ε) (f : α → Except ε β) :
    ((Except.error e : Except ε α) >>= f) = Except.error e := rfl

lemma pureIsOk {ε α : Type} (a : α) :
    (pure a : Except ε α) = Except.ok a := rfl

lemma getField_append_ne (fields : List (String × Json)) (k name : String)
    (v : Json) (h : (k == name) = false) :
    getField (fields ++ [(k, v)]) name = getField fields name := by
  unfold getField
  rw [List.filter_append]
  simp [h]

lemma getField_append_self (fields : List (String × Json)) (name : String)
    (v : Json) (h : fields.filter (fun p => p.1 == name) = []) :
    getField (fields ++ [(name, v)]) name = .ok (some v) := by
  unfold getField
  rw [List.filter_append, h]
  simp

lemma buildHeaderAux_error_of_invalid (hs : List (String × String)) :
    ∀ acc, (∃ p ∈ hs, validHeaderName p.1 = false ∨ validHeaderValue p.2 = false) →
      ∃ e, buildHeaderAux acc hs = .error e ∧ isHeaderErr e = true := by
  induction hs with
  | nil =>
    intro acc h
    obtain ⟨p, hp, _⟩ := h
    exact absurd hp (List.not_mem_nil p)
  | cons q rest ih =>
    intro acc h
    obtain ⟨k, v⟩ := q
    by_cases hk : validHeaderName k = true
    · by_cases hv : validHeaderValue v = true
      · obtain ⟨p, hp, hbad⟩ := h
        rcases List.mem_cons.mp hp with heq | hmem
        · subst heq
          simp [hk, hv] at hbad
        · have step := ih (headerMapInsert acc (lowerAscii k) v) ⟨p, hmem, hbad⟩
          simpa [buildHeaderAux, hk, hv] using step
      · refine ⟨.InvalidHeaderValue v, ?_, rfl⟩
        simp [buildHeaderAux, hk, hv]
    · refine ⟨.InvalidHeaderName k, ?_, rfl⟩
      simp [buildHeaderAux, hk]

/-! Claim theorems. -/

/-- C1: the decoded result of a dispatcher call depends only on the
JSON body of the response, never on the transport-level HTTP status
code: two transports answering with identical bodies but arbitrary
different status codes give `make_request` results that are equal. -/
theorem decode_independent_of_status_code {T : Type} (cfg : ChapaConfig)
    (endpoint method : String) (body : Option Json)
    (decode : Json → Except String T) (jbody : Json) (s1 s2 : Nat) :
    makeRequest cfg endpoint method body
        (fun _ => { statusCode := s1, body := jbody }) decode =
      makeRequest cfg endpoint method body
        (fun _ => { statusCode := s2, body := jbody }) decode := by
  unfold makeRequest
  cases buildRequest cfg endpoint method body <;> rfl

/-- C2: a builder whose api key is missing or still the placeholder
sentinel fails `build()` with the missing-API-key error, so no
configuration is produced; and whenever the builder inside
`ChapaClient::new` fails this way, no client is constructed either —
the same error propagates. -/
theorem build_missing_or_placeholder_fails (b : ChapaConfigBuilder)
    (h : b.api_key = none ∨ b.api_key = some PLACEHOLDER_API_KEY) :
    b.build = some (.error missingApiKeyMsg) ∧
    ∀ env key,
      (applyOp (builderDefault env) (.api_key key)).build
          = some (.error missingApiKeyMsg) →
      chapaClientNew env key = some (.error missingApiKeyMsg) := by
  refine ⟨build_error_of_guard b h, ?_⟩
  intro env key hb
  unfold chapaClientNew
  rw [hb]

/-- Witness for C2 at the default builder with no environment key:
its api key is the placeholder and `build()` fails. -/
theorem build_missing_or_placeholder_fails_witness :
    ((builderDefault none).api_key = none ∨
      (builderDefault none).api_key = some PLACEHOLDER_API_KEY) ∧
    (builderDefault none).build = some (.error missingApiKeyMsg) :=
  ⟨Or.inr rfl, (build_missing_or_placeholder_fails _ (Or.inr rfl)).1⟩

/-- Configuration as built from the default builder with an
`Authorization` default header added next to the api key, for the C3
counterexample. -/
def cfgAuthOverride : ChapaConfig :=
  { api_key := "sk_live_1", base_url := "https://api.chapa.co",
    version := "v1",
    default_headers := [("Content-Type", "application/json"),
                        ("Authorization", "Basic xyz")],
    timeout := 30 }

/-- The request assembled from `cfgAuthOverride` for the `banks`
endpoint: the converted `Authorization` default header has replaced
the bearer value on merge. -/
def reqAuthOverride : HttpRequest :=
  { method := "GET", url := "https://api.chapa.co/v1/banks",
    headers := [("authorization", "Basic xyz"),
                ("content-type", "application/json")],
    body := none }

/-- C3 counterexample: the public `add_header` setter can configure a
default header named `Authorization`, the build still succeeds with
the non-placeholder key `sk_live_1`, and on the issued request the
replace-merge of `.headers(...)` after `.bearer_auth(...)` leaves the
authorization value `Basic xyz` — not `Bearer sk_live_1` — so not
every issued request carries the bearer header the claim states. -/
theorem authorization_default_header_overrides_bearer :
    (applyOps (builderDefault none)
        [BuilderOp.add_header "Authorization" "Basic xyz",
         BuilderOp.api_key "sk_live_1"]).build
      = some (.ok cfgAuthOverride) ∧
    buildRequest cfgAuthOverride "banks" "GET" none = .ok reqAuthOverride ∧
    headerValue reqAuthOverride.headers "authorization" = some "Basic xyz" ∧
    headerValue reqAuthOverride.headers "authorization"
      ≠ some ("Bearer " ++ "sk_live_1") :=
  ⟨rfl, rfl, rfl, by decide⟩

/-- C3 amended: a configuration build reached through the public
setters whose final api key is a non-placeholder `k` succeeds, and —
provided no configured default header is named `authorization` after
case normalization, since such a header replaces the bearer value when
merged — every request the resulting client assembles carries the
authorization header value `Bearer k`. -/
theorem nonplaceholder_build_sends_bearer (env : Option String)
    (ops : List BuilderOp) (k : String)
    (hk : (applyOps (builderDefault env) ops).api_key = some k)
    (hnp : k ≠ PLACEHOLDER_API_KEY)
    (hauth : "authorization" ∉
      (applyOps (builderDefault env) ops).default_headers.map
        (fun p => lowerAscii p.1)) :
    ∃ cfg, (applyOps (builderDefault env) ops).build = some (.ok cfg) ∧
      cfg.api_key = k ∧
      ∀ endpoint method body req,
        buildRequest cfg endpoint method body = .ok req →
        headerValue req.headers "authorization"
          = some ("Bearer " ++ k) := by
  obtain ⟨_, h2, h3, h4⟩ := applyOps_inv ops (builderDefault env)
    (builderDefault_inv env)
  obtain ⟨u, hu⟩ := Option.isSome_iff_exists.mp h2
  obtain ⟨v, hv⟩ := Option.isSome_iff_exists.mp h3
  obtain ⟨t, ht⟩ := Option.isSome_iff_exists.mp h4
  refine ⟨_, build_ok_of_key _ k u v t hk hu hv ht hnp, rfl, ?_⟩
  intro endpoint method body req hreq
  exact buildRequest_bearer _ endpoint method body req hreq hauth

/-- Witness for C3 with the secret key `sk_test_123` supplied through
the `api_key` setter and only the default content-type header. -/
theorem nonplaceholder_build_sends_bearer_witness :
    ((applyOps (builderDefault none) [BuilderOp.api_key "sk_test_123"]).api_key
        = some "sk_test_123") ∧
    ("authorization" ∉
      (applyOps (builderDefault none)
          [BuilderOp.api_key "sk_test_123"]).default_headers.map
        (fun p => lowerAscii p.1)) ∧
    ∃ cfg,
      (applyOps (builderDefault none) [BuilderOp.api_key "sk_test_123"]).build
          = some (.ok cfg) ∧
      cfg.api_key = "sk_test_123" ∧
      ∀ endpoint method body req,
        buildRequest cfg endpoint method body = .ok req →
        headerValue req.headers "authorization"
          = some ("Bearer " ++ "sk_test_123") :=
  ⟨rfl, by decide,
    nonplaceholder_build_sends_bearer none [BuilderOp.api_key "sk_test_123"]
      "sk_test_123" rfl (by decide) (by decide)⟩

/-- C6 counterexample: the claim says a configuration with the empty
api key is never successfully constructed, but `build()` only rejects
a missing or placeholder key — supplying the empty string builds a
configuration whose api key is `""`. -/
theorem empty_api_key_accepted :
    (applyOp (builderDefault none) (.api_key "")).build =
      some (Except.ok
        { api_key := "", base_url := "https://api.chapa.co", version := "v1",
          default_headers := [("Content-Type", "application/json")],
          timeout := 30 }) := rfl

/-- C6 amended: `build()` fails with the missing-API-key error exactly
when the api key is `None` or equals the placeholder sentinel; in
particular the empty-string api key is accepted, not rejected. -/
theorem build_fails_iff_missing_or_placeholder (b : ChapaConfigBuilder) :
    b.build = some (.error missingApiKeyMsg) ↔
      (b.api_key = none ∨ b.api_key = some PLACEHOLDER_API_KEY) := by
  constructor
  · intro h
    by_contra hn
    push_neg at hn
    obtain ⟨h1, h2⟩ := hn
    have hg : ¬(b.api_key.isNone ∨ b.api_key = some PLACEHOLDER_API_KEY) := by
      simp [Option.isNone_iff_eq_none, h1, h2]
    unfold ChapaConfigBuilder.build at h
    rw [if_neg hg] at h
    rcases hA : b.api_key with _ | k <;> rw [hA] at h
    · exact h1 hA
    · rcases hB : b.base_url with _ | u <;> rw [hB] at h <;>
        rcases hC : b.version with _ | v <;> rw [hC] at h <;>
          rcases hD : b.timeout with _ | t <;> rw [hD] at h <;>
            simp at h
  · exact build_error_of_guard b

/-- C10: every builder reachable from `new()`/`Default::default()`
through the public setters keeps `base_url`, `version` and `timeout`
populated, so the `unwrap` calls inside `build()` never panic:
`build()` always returns either the missing-API-key error or a
configuration. -/
theorem builder_unwraps_never_panic (env : Option String)
    (ops : List BuilderOp) :
    (applyOps (builderDefault env) ops).base_url.isSome = true ∧
    (applyOps (builderDefault env) ops).version.isSome = true ∧
    (applyOps (builderDefault env) ops).timeout.isSome = true ∧
    ((applyOps (builderDefault env) ops).build
        = some (.error missingApiKeyMsg) ∨
      ∃ cfg, (applyOps (builderDefault env) ops).build = some (.ok cfg)) := by
  have h := applyOps_inv ops (builderDefault env) (builderDefault_inv env)
  exact ⟨h.2.1, h.2.2.1, h.2.2.2, build_of_inv _ h⟩

lemma strAppendAssoc (a b c : String) : (a ++ b) ++ c = a ++ (b ++ c) := by
  apply String.ext
  simp [String.data_append, List.append_assoc]

/-- C7: the target URL of every dispatcher call is the plain
concatenation `base_url ++ "/" ++ version ++ "/" ++ endpoint` with no
slash normalization; the `banks` endpoint therefore targets
`{base_url}/{version}/banks`, and a base URL ending in a slash yields
a URL containing a double slash. -/
theorem request_url_exact_concatenation (cfg : ChapaConfig)
    (endpoint method : String) (body : Option Json) (req : HttpRequest)
    (h : buildRequest cfg endpoint method body = .ok req) :
    req.url = cfg.base_url ++ "/" ++ cfg.version ++ "/" ++ endpoint ∧
    (∀ reqB, buildRequest cfg "banks" "GET" none = .ok reqB →
        reqB.url = cfg.base_url ++ "/" ++ cfg.version ++ "/banks") ∧
    (∀ s, cfg.base_url = s ++ "/" →
        List.IsInfix "//".toList req.url.toList) := by
  have hurl := (buildRequest_ok_fields cfg endpoint method body req h).1
  refine ⟨hurl, ?_, ?_⟩
  · intro reqB hB
    have h2 := (buildRequest_ok_fields cfg "banks" "GET" none reqB hB).1
    have h3 : ("/" : String) ++ "banks" = "/banks" := rfl
    rw [h2, strAppendAssoc (cfg.base_url ++ "/" ++ cfg.version) "/" "banks", h3]
  · intro s hs
    refine ⟨s.toList, (cfg.version ++ "/" ++ endpoint).toList, ?_⟩
    have h1 : "//".toList = ['/', '/'] := rfl
    have h2 : ("/" : String).data = ['/'] := rfl
    rw [hurl, hs]
    show s.data ++ _ ++ _ = _
    simp only [String.toList, String.data_append, h1, h2, List.append_assoc,
      List.cons_append, List.nil_append]

/-- Concrete configuration whose base URL ends in a slash, for the C7
witness. -/
def cfgSlash : ChapaConfig :=
  { api_key := "sk_test_key", base_url := "https://api.chapa.co/",
    version := "v1",
    default_headers := [("Content-Type", "application/json")], timeout := 30 }

/-- The request `buildRequest` assembles from `cfgSlash` for the
`banks` endpoint (note the double slash in the URL). -/
def reqSlash : HttpRequest :=
  { method := "GET", url := "https://api.chapa.co//v1/banks",
    headers := [("authorization", "Bearer sk_test_key"),
                ("content-type", "application/json")],
    body := none }

/-- Witness for C7 at `cfgSlash`: the URL is the exact concatenation
and exhibits the double slash. -/
theorem request_url_exact_concatenation_witness :
    buildRequest cfgSlash "banks" "GET" none = .ok reqSlash ∧
    (reqSlash.url = cfgSlash.base_url ++ "/" ++ cfgSlash.version ++ "/" ++ "banks" ∧
      (∀ reqB, buildRequest cfgSlash "banks" "GET" none = .ok reqB →
          reqB.url = cfgSlash.base_url ++ "/" ++ cfgSlash.version ++ "/banks") ∧
      (∀ s, cfgSlash.base_url = s ++ "/" →
          List.IsInfix "//".toList reqSlash.url.toList)) :=
  ⟨rfl, request_url_exact_concatenation cfgSlash "banks" "GET" none reqSlash rfl⟩

/-- C8: when any configured default header has an illegal name or
value, header conversion fails with an `InvalidHeaderName` or
`InvalidHeaderValue` error, and every dispatcher call returns that
error for every transport — the transport is never consulted, so the
error strictly precedes any network send. -/
theorem invalid_header_fails_before_send (cfg : ChapaConfig)
    (endpoint method : String) (body : Option Json)
    (h : ∃ p ∈ cfg.default_headers,
        validHeaderName p.1 = false ∨ validHeaderValue p.2 = false) :
    ∃ e, build_header cfg.default_headers = .error e ∧ isHeaderErr e = true ∧
      ∀ (T : Type) (transport : HttpRequest → HttpResponse)
        (decode : Json → Except String T),
        makeRequest cfg endpoint method body transport decode = .error e := by
  obtain ⟨e, he, hkind⟩ := buildHeaderAux_error_of_invalid
    cfg.default_headers [] h
  refine ⟨e, he, hkind, ?_⟩
  intro T transport decode
  unfold makeRequest buildRequest build_header
  rw [he]

/-- Configuration with a header name containing a control character,
for the C8 witness. -/
def cfgBadHeader : ChapaConfig :=
  { api_key := "sk_test_key", base_url := "https://api.chapa.co",
    version := "v1",
    default_headers := [("bad\nkey", "application/json")], timeout := 30 }

/-- Witness for C8 at `cfgBadHeader`: its header name holds a newline,
so every dispatcher call fails with a header error before sending. -/
theorem invalid_header_fails_before_send_witness :
    (∃ p ∈ cfgBadHeader.default_headers,
        validHeaderName p.1 = false ∨ validHeaderValue p.2 = false) ∧
    ∃ e, build_header cfgBadHeader.default_headers = .error e ∧
      isHeaderErr e = true ∧
      ∀ (T : Type) (transport : HttpRequest → HttpResponse)
        (decode : Json → Except String T),
        makeRequest cfgBadHeader "banks" "GET" none transport decode
          = .error e :=
  ⟨⟨("bad\nkey", "application/json"), List.mem_cons_self _ _,
      Or.inl rfl⟩,
    invalid_header_fails_before_send cfgBadHeader "banks" "GET" none
      ⟨("bad\nkey", "application/json"), List.mem_cons_self _ _,
        Or.inl rfl⟩⟩

/-- C4: any envelope specialization decodes a JSON object that has a
message field even when `status` is entirely absent (the decoded
status is the sentinel `Unspecified`) and when `data` is absent or
null (the decoded data is `none`); the with-meta envelope tolerates an
absent `meta` the same way. -/
theorem envelope_tolerant_decoding {X M : Type}
    (decodeX : Json → Except String X) (decodeM : Json → Except String M)
    (fields : List (String × Json)) (m : Json)
    (hm : getField fields "message" = .ok (some m))
    (hs : getField fields "status" = .ok none)
    (hd : getField fields "data" = .ok none ∨
          getField fields "data" = .ok (some Json.null))
    (hmeta : getField fields "meta" = .ok none) :
    decodeChapaResponse (serdeOption decodeX) none (Json.obj fields) =
      .ok { message := m, status := "Unspecified", data := none } ∧
    decodeChapaResponseWithMeta (serdeOption decodeX) none
        (serdeOption decodeM) none (Json.obj fields) =
      .ok { message := m, status := "Unspecified", data := none,
            meta := none } := by
  rcases hd with hd | hd <;>
    exact ⟨by simp [decodeChapaResponse, hm, hs, hd, bindOk, pureIsOk,
                    serdeOption, unspecified_status],
           by simp [decodeChapaResponseWithMeta, hm, hs, hd, hmeta, bindOk,
                    pureIsOk, serdeOption, unspecified_status]⟩

/-- Witness for C4 on the body holding only a message field. -/
theorem envelope_tolerant_decoding_witness :
    (getField [("message", Json.str "Banks retrieved")] "message"
        = .ok (some (Json.str "Banks retrieved"))) ∧
    (decodeChapaResponse (serdeOption decodeString) none
        (Json.obj [("message", Json.str "Banks retrieved")]) =
      .ok { message := Json.str "Banks retrieved", status := "Unspecified",
            data := (none : Option String) } ∧
      decodeChapaResponseWithMeta (serdeOption decodeString) none
          (serdeOption decodeString) none
          (Json.obj [("message", Json.str "Banks retrieved")]) =
        .ok { message := Json.str "Banks retrieved", status := "Unspecified",
              data := (none : Option String),
              meta := (none : Option String) }) :=
  ⟨rfl, envelope_tolerant_decoding decodeString decodeString _ _
    rfl rfl (Or.inl rfl) rfl⟩

/-- C5: for any envelope specialization, decoding a body with the
`data` field omitted yields exactly the same envelope value as
decoding the same body with `data` present and equal to null. -/
theorem data_omitted_equals_data_null {X M : Type}
    (decodeX : Json → Except String X) (decodeM : Json → Except String M)
    (fields : List (String × Json))
    (hd : "data" ∉ fields.map Prod.fst) :
    decodeChapaResponse (serdeOption decodeX) none (Json.obj fields) =
      decodeChapaResponse (serdeOption decodeX) none
        (Json.obj (fields ++ [("data", Json.null)])) ∧
    decodeChapaResponseWithMeta (serdeOption decodeX) none
        (serdeOption decodeM) none (Json.obj fields) =
      decodeChapaResponseWithMeta (serdeOption decodeX) none
        (serdeOption decodeM) none
        (Json.obj (fields ++ [("data", Json.null)])) := by
  have hnil : fields.filter (fun p => p.1 == "data") = [] := by
    rw [List.filter_eq_nil_iff]
    intro p hp hpe
    exact hd (List.mem_map.mpr ⟨p, hp, by simpa using hpe⟩)
  have hdata : getField fields "data" = .ok none := by
    unfold getField; rw [hnil]
  have hdnull := getField_append_self fields "data" Json.null hnil
  have hmsg := getField_append_ne fields "data" "message" Json.null (by decide)
  have hst := getField_append_ne fields "data" "status" Json.null (by decide)
  have hmeta := getField_append_ne fields "data" "meta" Json.null (by decide)
  constructor
  · simp [decodeChapaResponse, hmsg, hst, hdata, hdnull, bindOk, pureIsOk,
          serdeOption]
  · simp [decodeChapaResponseWithMeta, hmsg, hst, hmeta, hdata, hdnull,
          bindOk, pureIsOk, serdeOption]

/-- Witness for C5 on a failure body holding only a message field. -/
theorem data_omitted_equals_data_null_witness :
    ("data" ∉ [("message", Json.str "failed")].map Prod.fst) ∧
    (decodeChapaResponse (serdeOption decodeString) none
        (Json.obj [("message", Json.str "failed")]) =
      decodeChapaResponse (serdeOption decodeString) none
        (Json.obj ([("message", Json.str "failed")] ++ [("data", Json.null)])) ∧
      decodeChapaResponseWithMeta (serdeOption decodeString) none
          (serdeOption decodeString) none
          (Json.obj [("message", Json.str "failed")]) =
        decodeChapaResponseWithMeta (serdeOption decodeString) none
          (serdeOption decodeString) none
          (Json.obj ([("message", Json.str "failed")] ++ [("data", Json.null)]))) :=
  ⟨by decide, data_omitted_equals_data_null decodeString decodeString
    [("message", Json.str "failed")] (by decide)⟩

/-- Configuration with only the default content-type header, for the
C9 counterexample. -/
def cfgPlain : ChapaConfig :=
  { api_key := "sk_test_key", base_url := "https://api.chapa.co",
    version := "v1",
    default_headers := [("Content-Type", "application/json")],
    timeout := 30 }

/-- A response body that lacks the `message` field. -/
def noMessageBody : Json := Json.obj [("status", Json.str "failed")]

/-- Discriminator for the `JsonError` variant of a call result. -/
def resultIsJsonError {T : Type} : Except ChapaError T → Bool
  | .error (.JsonError _) => true
  | _ => false

/-- C9 counterexample: on a body lacking `message` the call fails, but
the error it returns is the `NetworkError` wrapper the
`From<reqwest::Error>` conversion produces for a body-decode failure —
not the `JsonError` deserialization variant the claim names, which the
dispatcher path never produces. -/
theorem missing_message_error_is_network_kind :
    makeRequest cfgPlain "banks" "GET" none
        (fun _ => { statusCode := 200, body := noMessageBody })
        (decodeChapaResponse (serdeOption decodeString) none)
      = .error (.NetworkError "missing field message") ∧
    resultIsJsonError (makeRequest cfgPlain "banks" "GET" none
        (fun _ => { statusCode := 200, body := noMessageBody })
        (decodeChapaResponse (serdeOption decodeString) none)) = false :=
  ⟨rfl, rfl⟩

/-- C9 amended: an envelope body lacking the `message` field entirely
fails deserialization for both envelope shapes, and a dispatcher call
receiving such a body returns an error — surfaced as the
`NetworkError` variant wrapping the decode failure (the `?` on
`.json::<T>()` converts the reqwest decode error through
`From<reqwest::Error>`), not as the `JsonError` variant; `message` is
still the only envelope field whose presence is required. -/
theorem missing_message_fails_decode {X M : Type}
    (decodeX : Json → Except String X) (decodeM : Json → Except String M)
    (fields : List (String × Json))
    (hm : getField fields "message" = .ok none) :
    (∃ e, decodeChapaResponse (serdeOption decodeX) none (Json.obj fields)
        = .error e) ∧
    (∃ e, decodeChapaResponseWithMeta (serdeOption decodeX) none
        (serdeOption decodeM) none (Json.obj fields) = .error e) ∧
    ∀ (cfg : ChapaConfig) (endpoint method : String) (body : Option Json)
      (transport : HttpRequest → HttpResponse) (req : HttpRequest),
      buildRequest cfg endpoint method body = .ok req →
      (transport req).body = Json.obj fields →
      ∃ e, makeRequest cfg endpoint method body transport
          (decodeChapaResponse (serdeOption decodeX) none)
        = .error (ChapaError.NetworkError e) := by
  have part1 : ∃ e, decodeChapaResponse (serdeOption decodeX) none
      (Json.obj fields) = .error e := by
    rcases hst : getField fields "status" with e | stO
    · exact ⟨e, by simp [decodeChapaResponse, hm, hst, bindOk, bindErr]⟩
    · rcases hdt : getField fields "data" with e | dtO
      · exact ⟨e, by simp [decodeChapaResponse, hm, hst, hdt, bindOk, bindErr]⟩
      · exact ⟨"missing field message",
          by simp [decodeChapaResponse, hm, hst, hdt, bindOk, bindErr]⟩
  have part2 : ∃ e, decodeChapaResponseWithMeta (serdeOption decodeX) none
      (serdeOption decodeM) none (Json.obj fields) = .error e := by
    rcases hst : getField fields "status" with e | stO
    · exact ⟨e, by simp [decodeChapaResponseWithMeta, hm, hst, bindOk, bindErr]⟩
    · rcases hdt : getField fields "data" with e | dtO
      · exact ⟨e, by simp [decodeChapaResponseWithMeta, hm, hst, hdt,
          bindOk, bindErr]⟩
      · rcases hmt : getField fields "meta" with e | mtO
        · exact ⟨e, by simp [decodeChapaResponseWithMeta, hm, hst, hdt, hmt,
            bindOk, bindErr]⟩
        · exact ⟨"missing field message",
            by simp [decodeChapaResponseWithMeta, hm, hst, hdt, hmt,
              bindOk, bindErr]⟩
  refine ⟨part1, part2, ?_⟩
  intro cfg endpoint method body transport req hreq hbody
  obtain ⟨e, he⟩ := part1
  exact ⟨e, by simp only [makeRequest, hreq, hbody, he]⟩

/-- Witness for C9 on a body holding only a status field. -/
theorem missing_message_fails_decode_witness :
    (getField [("status", Json.str "failed")] "message" = .ok none) ∧
    ((∃ e, decodeChapaResponse (serdeOption decodeString) none
        (Json.obj [("status", Json.str "failed")]) = .error e) ∧
      (∃ e, decodeChapaResponseWithMeta (serdeOption decodeString) none
          (serdeOption decodeString) none
          (Json.obj [("status", Json.str "failed")]) = .error e) ∧
      ∀ (cfg : ChapaConfig) (endpoint method : String) (body : Option Json)
        (transport : HttpRequest → HttpResponse) (req : HttpRequest),
        buildRequest cfg endpoint method body = .ok req →
        (transport req).body = Json.obj [("status", Json.str "failed")] →
        ∃ e, makeRequest cfg endpoint method body transport
            (decodeChapaResponse (serdeOption decodeString) none)
          = .error (ChapaError.NetworkError e)) :=
  ⟨rfl, missing_message_fails_decode decodeString decodeString
    [("status", Json.str "failed")] rfl⟩

end Chapa
